import Mathlib

/-!
Verification of the USFInd lost-and-found matching engine.

The scoring core is `calculate_match_score` in `src/matching_service.py`,
an additive four-signal score over two item records (Python dictionaries),
and the ranking loop in `src/app.py` (`page_lost_item`), which keeps the
candidates scoring at least 30 and sorts them descending by score with
Python's stable `list.sort`.

The embedding has two layers.

* `RawItem` / `calculate_match_score` mirror the Python function on raw
  dictionaries: a field is either absent (`none`), present with the null
  value (`some none`), or present with a string (`some (some s)`).
  `dict.get(key, "")` returns the default only for an absent key, so a
  present null flows into `.lower()` and raises `AttributeError`; the
  embedding returns `Except.error ()` there, in the left-to-right
  evaluation order of the source.

* `ItemRecord` / `score` is the same computation for records whose fields
  are plain strings (an absent key behaves exactly like the empty string),
  split into the four named signals of the source.  The theorem
  `score_total_wellFormed` proves the two layers agree.

Strings are handled as `List Char` (`String.data`) because the scoring
logic only reads characters; `lowerData`, `substrB` and `pyWords` model
Python's `str.lower()` (ASCII), the substring operator `in`, and
`str.split()` (split on whitespace runs, dropping empty tokens).
`List.insertionSort` models Python's `list.sort(reverse=True, key=...)`:
both are stable sorts with respect to the same total preorder on the
score key, hence produce the same output list.
-/

namespace USFInd

/-- Model of Python `str.lower()`: lowercase every character (ASCII). -/
def lowerData (s : String) : List Char := s.data.map Char.toLower

/-- Model of Python's substring test `a in b` on character lists. -/
def substrB : List Char → List Char → Bool
  | a, [] => a.isEmpty
  | a, b :: bs => a.isPrefixOf (b :: bs) || substrB a bs

/-- Accumulator loop for `pyWords`: `cur` is the current word, reversed. -/
def wordsAux : List Char → List Char → List (List Char)
  | [], cur => if cur = [] then [] else [cur.reverse]
  | c :: rest, cur =>
    if c.isWhitespace then
      if cur = [] then wordsAux rest [] else cur.reverse :: wordsAux rest []
    else wordsAux rest (c :: cur)

/-- Model of Python `str.split()` with no separator: split on runs of
whitespace, producing no empty tokens. -/
def pyWords (s : List Char) : List (List Char) := wordsAux s []

/-- An item description as the Matcher sees it: the four fields read by
`calculate_match_score`, all strings (`src/matching_service.py`; the spec's
ItemRecord also carries `description`, `image_path`, `timestamp`, which the
scoring code never reads, so they are omitted from the embedding). -/
structure ItemRecord where
  item_type : String
  color : String
  brand : String
  features : String
deriving DecidableEq, Repr

/-- Type signal (`matching_service.py` lines 6-7): 40 points for
case-insensitive equality of `item_type`. -/
def typeScore (lost found : ItemRecord) : Nat :=
  if lowerData lost.item_type = lowerData found.item_type then 40 else 0

/-- Color signal (lines 10-12): 25 points when either lowercased color is a
substring of the other. -/
def colorScore (lost found : ItemRecord) : Nat :=
  if substrB (lowerData lost.color) (lowerData found.color)
      || substrB (lowerData found.color) (lowerData lost.color) then 25 else 0

/-- Brand signal (lines 15-16): 20 points for case-insensitive equality,
unless the lost item's raw brand is exactly the string "Unknown". -/
def brandScore (lost found : ItemRecord) : Nat :=
  if lowerData lost.brand = lowerData found.brand ∧ lost.brand ≠ "Unknown"
  then 20 else 0

/-- The set of feature tokens (lines 19-20): lowercase, split on
whitespace, collapse duplicates (Python's `set(....lower().split())`). -/
def featureTokens (s : String) : List (List Char) := (pyWords (lowerData s)).dedup

/-- Size of the intersection of the two token sets (line 21). -/
def featureOverlap (lost found : ItemRecord) : Nat :=
  ((featureTokens lost.features).filter
    (fun t => t ∈ featureTokens found.features)).length

/-- Feature signal (lines 22-23): `min 15 (overlap * 5)` when the overlap
is positive, nothing otherwise. -/
def featureScore (lost found : ItemRecord) : Nat :=
  if 0 < featureOverlap lost found
  then min 15 (featureOverlap lost found * 5) else 0

/-- The Matcher's `score` operation: the sum of the four signals, exactly
the accumulation of `calculate_match_score` for string-valued records. -/
def score (lost found : ItemRecord) : Nat :=
  typeScore lost found + colorScore lost found + brandScore lost found
    + featureScore lost found

/-! ### Raw dictionary layer -/

/-- A raw Python dictionary restricted to the four keys the scorer reads.
`none` = key absent, `some none` = key present with the null value,
`some (some s)` = key present with string `s`. -/
structure RawItem where
  item_type : Option (Option String)
  color : Option (Option String)
  brand : Option (Option String)
  features : Option (Option String)

/-- Model of `d.get(key, "")`: the default `""` is used only when the key
is absent; a present null value is returned as-is (`none`). -/
def pyGet : Option (Option String) → Option String
  | none => some ""
  | some v => v

/-- Model of `v.lower()` on the result of a `.get`: calling `.lower()` on
the null value raises `AttributeError`. -/
def pyLower : Option String → Except Unit (List Char)
  | none => Except.error ()
  | some s => Except.ok (lowerData s)

/-- Direct translation of `calculate_match_score`
(`src/matching_service.py` lines 1-25) on raw dictionaries, with the
source's left-to-right evaluation order of the `.lower()` calls. -/
def calculate_match_score (lost_item found_item : RawItem) : Except Unit Nat :=
  Except.bind (pyLower (pyGet lost_item.item_type)) fun lt =>
  Except.bind (pyLower (pyGet found_item.item_type)) fun ft =>
  let s1 : Nat := if lt = ft then 0 + 40 else 0
  Except.bind (pyLower (pyGet lost_item.color)) fun lc =>
  Except.bind (pyLower (pyGet found_item.color)) fun fc =>
  let s2 := if substrB lc fc || substrB fc lc then s1 + 25 else s1
  Except.bind (pyLower (pyGet lost_item.brand)) fun lb =>
  Except.bind (pyLower (pyGet found_item.brand)) fun fb =>
  let s3 := if lb = fb ∧ pyGet lost_item.brand ≠ some "Unknown" then s2 + 20 else s2
  Except.bind (pyLower (pyGet lost_item.features)) fun lf =>
  Except.bind (pyLower (pyGet found_item.features)) fun ff =>
  let lost_features := (pyWords lf).dedup
  let found_features := (pyWords ff).dedup
  let feature_overlap := (lost_features.filter (fun t => t ∈ found_features)).length
  let s4 := if 0 < feature_overlap then s3 + min 15 (feature_overlap * 5) else s3
  Except.ok s4

/-- A raw dictionary is well formed when no present key holds null; its
values are then all strings, possibly with keys missing entirely. -/
def WellFormed (r : RawItem) : Prop :=
  r.item_type ≠ some none ∧ r.color ≠ some none ∧ r.brand ≠ some none
    ∧ r.features ≠ some none

/-- The `ItemRecord` a well-formed raw dictionary denotes: each field read
through `d.get(key, "")`. -/
def interp (r : RawItem) : ItemRecord :=
  ⟨(pyGet r.item_type).getD "", (pyGet r.color).getD "",
    (pyGet r.brand).getD "", (pyGet r.features).getD ""⟩

/-- A field that is absent or the empty string (claim vocabulary for
entirely unspecified records). -/
def blankField (f : Option (Option String)) : Prop :=
  f = none ∨ f = some (some "")

/-! ### Ranking (src/app.py, page_lost_item, lines 344-350) -/

/-- Descending comparison on the score component, the key
`lambda x: x[0]` with `reverse=True` of the source's sort call. -/
def scoreGE (x y : Nat × ItemRecord) : Prop := y.1 ≤ x.1

instance : DecidableRel scoreGE := fun x y => Nat.decLe y.1 x.1

instance : IsTrans (Nat × ItemRecord) scoreGE :=
  ⟨fun _ _ _ h1 h2 => Nat.le_trans h2 h1⟩

instance : IsTotal (Nat × ItemRecord) scoreGE :=
  ⟨fun a b => Nat.le_total b.1 a.1⟩

/-- The scored pairs kept by the threshold test `if score >= 30`, in
input order (the loop of `page_lost_item` building `matches`). -/
def kept (query : ItemRecord) (candidates : List ItemRecord) :
    List (Nat × ItemRecord) :=
  (candidates.map (fun c => (score query c, c))).filter (fun m => 30 ≤ m.1)

/-- The Matcher's `rank` operation: threshold, then
`matches.sort(reverse=True, key=lambda x: x[0])`.  Python's `list.sort`
is stable, and a stable sort by a total preorder is unique, so the
stable `List.insertionSort` computes the same list. -/
def rank (query : ItemRecord) (candidates : List ItemRecord) :
    List (Nat × ItemRecord) :=
  (kept query candidates).insertionSort scoreGE

/-! ### Helper lemmas -/

theorem substrB_correct (a b : List Char) : substrB a b = true ↔ a <:+: b := by
  induction b with
  | nil => simp [substrB, List.isEmpty_iff, List.infix_nil]
  | cons c bs ih =>
      simp [substrB, List.isPrefixOf_iff_prefix, ih, List.infix_cons_iff]

theorem lowerData_empty : lowerData "" = [] := rfl

theorem length_filter_dedup_eq_card (l m : List (List Char)) :
    (l.dedup.filter (fun t => t ∈ m.dedup)).length
      = (l.toFinset ∩ m.toFinset).card := by
  have hnd : (l.dedup.filter (fun t => t ∈ m.dedup)).Nodup :=
    List.Nodup.filter _ (List.nodup_dedup l)
  rw [← List.toFinset_card_of_nodup hnd]
  congr 1
  ext t
  simp [List.mem_toFinset, List.mem_filter, List.mem_dedup, Finset.mem_inter]

theorem featureOverlap_eq_card (a b : ItemRecord) :
    featureOverlap a b
      = ((pyWords (lowerData a.features)).toFinset
          ∩ (pyWords (lowerData b.features)).toFinset).card := by
  unfold featureOverlap featureTokens
  exact length_filter_dedup_eq_card _ _

theorem featureOverlap_comm (a b : ItemRecord) :
    featureOverlap a b = featureOverlap b a := by
  rw [featureOverlap_eq_card, featureOverlap_eq_card, Finset.inter_comm]

theorem pyLower_pyGet {f : Option (Option String)} (h : f ≠ some none) :
    pyLower (pyGet f) = Except.ok (lowerData ((pyGet f).getD "")) := by
  match f with
  | none => rfl
  | some none => exact absurd rfl h
  | some (some s) => rfl

theorem pyGet_ne_unknown_iff {f : Option (Option String)} (h : f ≠ some none) :
    pyGet f ≠ some "Unknown" ↔ (pyGet f).getD "" ≠ "Unknown" := by
  match f with
  | none => simp [pyGet]
  | some none => exact absurd rfl h
  | some (some s) => simp [pyGet]

theorem brandScore_of_ci_eq {a b : ItemRecord}
    (h1 : lowerData a.brand = lowerData b.brand) (h2 : a.brand ≠ "Unknown") :
    brandScore a b = 20 := by
  unfold brandScore
  rw [if_pos ⟨h1, h2⟩]

theorem colorScore_iff_substr (a b : ItemRecord) :
    colorScore a b = 25 ↔
      (substrB (lowerData a.color) (lowerData b.color)
        || substrB (lowerData b.color) (lowerData a.color)) = true := by
  unfold colorScore
  split <;> simp_all

/-! ### Claim theorems -/

/-- Claim C3: for every pair of ItemRecords, the color signal contributes exactly
25 points if and only if, after lowercasing, the query's color is a
substring of the candidate's color or vice versa; an empty color on either
side always yields the 25 points. -/
theorem color_signal_iff_substring (a b : ItemRecord) :
    (colorScore a b = 25 ↔
      (lowerData a.color <:+: lowerData b.color
        ∨ lowerData b.color <:+: lowerData a.color))
    ∧ (a.color = "" ∨ b.color = "" → colorScore a b = 25) := by
  have key := colorScore_iff_substr a b
  rw [Bool.or_eq_true, substrB_correct, substrB_correct] at key
  refine ⟨key, fun h => key.mpr ?_⟩
  rcases h with h | h
  · exact Or.inl (by rw [h, lowerData_empty]; exact List.nil_infix)
  · exact Or.inr (by rw [h, lowerData_empty]; exact List.nil_infix)

/-- Witness for C3 at concrete records: `"lack"` is a substring of
`"Black"` lowercased, so the signal fires; an empty color also fires. -/
theorem color_signal_iff_substring_witness :
    colorScore ⟨"", "lack", "", ""⟩ ⟨"", "Black", "", ""⟩ = 25
      ∧ colorScore ⟨"", "", "", ""⟩ ⟨"", "red", "", ""⟩ = 25 :=
  ⟨(color_signal_iff_substring ⟨"", "lack", "", ""⟩ ⟨"", "Black", "", ""⟩).1.mpr
      (Or.inl (by decide)),
    (color_signal_iff_substring ⟨"", "", "", ""⟩ ⟨"", "red", "", ""⟩).2
      (Or.inl rfl)⟩

/-- Claim C4: the brand signal contributes exactly 20 points iff the two brands
are equal case-insensitively and the query's brand is not the literal
string "Unknown"; when the query's brand is "Unknown" it contributes 0
regardless of the candidate; it never contributes anything else. -/
theorem brand_signal_iff (a b : ItemRecord) :
    (brandScore a b = 20 ↔
      lowerData a.brand = lowerData b.brand ∧ a.brand ≠ "Unknown")
    ∧ (a.brand = "Unknown" → brandScore a b = 0)
    ∧ (brandScore a b = 20 ∨ brandScore a b = 0) := by
  unfold brandScore
  refine ⟨?_, ?_, ?_⟩
  · split
    · next hc => exact iff_of_true rfl hc
    · next hc => exact iff_of_false (by omega) hc
  · intro h
    rw [if_neg (fun hc => hc.2 h)]
  · split
    · exact Or.inl rfl
    · exact Or.inr rfl

/-- Witness for C4: equal brands earn 20, and a query brand "Unknown"
earns 0 even against an identical candidate brand. -/
theorem brand_signal_iff_witness :
    brandScore ⟨"", "", "Coach", ""⟩ ⟨"", "", "coach", ""⟩ = 20
      ∧ brandScore ⟨"", "", "Unknown", ""⟩ ⟨"", "", "Unknown", ""⟩ = 0 :=
  ⟨(brand_signal_iff ⟨"", "", "Coach", ""⟩ ⟨"", "", "coach", ""⟩).1.mpr
      ⟨by decide, by decide⟩,
    (brand_signal_iff ⟨"", "", "Unknown", ""⟩ ⟨"", "", "Unknown", ""⟩).2.1 rfl⟩

/-- Claim C5: the feature signal contributes exactly `min 15 (n * 5)` points,
where `n` is the size of the intersection of the two sets obtained by
lowercasing each features string and splitting on whitespace (duplicates
collapsed); zero overlap contributes 0 with no special case needed. -/
theorem feature_signal_eq_min (a b : ItemRecord) :
    featureScore a b
      = min 15 (((pyWords (lowerData a.features)).toFinset
          ∩ (pyWords (lowerData b.features)).toFinset).card * 5) := by
  have h := featureOverlap_eq_card a b
  unfold featureScore
  rw [← h]
  split
  · rfl
  · omega

/-- Claim C10: the "Unknown" sentinel exclusion is case-sensitive while the
equality test is case-insensitive: any casing variant other than exactly
"Unknown" still earns the 20 brand points when the brands are
case-insensitively equal. -/
theorem unknown_sentinel_case_sensitive (a b : ItemRecord)
    (h1 : lowerData a.brand = lowerData b.brand) (h2 : a.brand ≠ "Unknown") :
    brandScore a b = 20 :=
  brandScore_of_ci_eq h1 h2

/-- Witness for C10: a query brand "unknown" (lowercase u, so not the
literal sentinel) matched against "UNKNOWN" earns the 20 points. -/
theorem unknown_sentinel_case_sensitive_witness :
    brandScore ⟨"", "", "unknown", ""⟩ ⟨"", "", "UNKNOWN", ""⟩ = 20 :=
  unknown_sentinel_case_sensitive ⟨"", "", "unknown", ""⟩ ⟨"", "", "UNKNOWN", ""⟩
    (by decide) (by decide)

/-- Claim C1 counterexample: a fully-specified record with a non-"Unknown" brand
and exactly one feature token self-scores 90, not 100 (one shared token
earns only `min 15 (1 * 5) = 5` feature points). -/
theorem self_match_counterexample :
    (⟨"wallet", "black", "Coach", "leather"⟩ : ItemRecord).item_type ≠ ""
    ∧ (⟨"wallet", "black", "Coach", "leather"⟩ : ItemRecord).color ≠ ""
    ∧ (⟨"wallet", "black", "Coach", "leather"⟩ : ItemRecord).brand ≠ "Unknown"
    ∧ (featureTokens
        (⟨"wallet", "black", "Coach", "leather"⟩ : ItemRecord).features).length = 1
    ∧ score ⟨"wallet", "black", "Coach", "leather"⟩
        ⟨"wallet", "black", "Coach", "leather"⟩ = 90
    ∧ score ⟨"wallet", "black", "Coach", "leather"⟩
        ⟨"wallet", "black", "Coach", "leather"⟩ ≠ 100 := by
  decide

/-- Claim C1 (amended): self-match is a perfect 100 for any record whose brand is
not the literal "Unknown" and whose features field contains at least three
distinct (case-folded) whitespace tokens. -/
theorem self_match_perfect (x : ItemRecord) (hb : x.brand ≠ "Unknown")
    (hf : 3 ≤ (featureTokens x.features).length) : score x x = 100 := by
  have ht : typeScore x x = 40 := by
    unfold typeScore
    rw [if_pos rfl]
  have hc : colorScore x x = 25 := by
    unfold colorScore
    rw [if_pos (Bool.or_eq_true _ _ |>.mpr
      (Or.inl ((substrB_correct _ _).mpr (List.infix_refl _))))]
  have hbr : brandScore x x = 20 := brandScore_of_ci_eq rfl hb
  have hov : featureOverlap x x = (featureTokens x.features).length := by
    unfold featureOverlap
    rw [List.filter_eq_self.mpr (fun a ha => by simpa using ha)]
  have hfe : featureScore x x = 15 := by
    unfold featureScore
    rw [hov, if_pos (by omega)]
    omega
  unfold score
  rw [ht, hc, hbr, hfe]

/-- Witness for C1 (amended) at a record with three feature tokens. -/
theorem self_match_perfect_witness :
    score ⟨"wallet", "black", "Coach", "red zip torn"⟩
      ⟨"wallet", "black", "Coach", "red zip torn"⟩ = 100 :=
  self_match_perfect ⟨"wallet", "black", "Coach", "red zip torn"⟩
    (by decide) (by decide)

/-- Claim C2 counterexample: a present null field value is not treated as the
empty string — the score raises (models Python's `AttributeError` from
`None.lower()`); and two records whose fields are all missing score 85,
not 0, so missing fields do not contribute zero points to the total. -/
theorem score_null_counterexample :
    calculate_match_score ⟨some none, none, none, none⟩ ⟨none, none, none, none⟩
        = Except.error ()
    ∧ calculate_match_score ⟨none, none, none, none⟩ ⟨none, none, none, none⟩
        = Except.ok 85 :=
  ⟨rfl, rfl⟩

/-- Claim C2 (amended): the score is total and never raises for every pair of
raw records whose present field values are strings; a missing field is
read as the empty string, and the result is the pure four-signal score of
the denoted records.  A null field value is not tolerated (see the
counterexample). -/
theorem score_total_wellFormed (ra rb : RawItem)
    (ha : WellFormed ra) (hb : WellFormed rb) :
    calculate_match_score ra rb = Except.ok (score (interp ra) (interp rb)) := by
  obtain ⟨a1, a2, a3, a4⟩ := ha
  obtain ⟨b1, b2, b3, b4⟩ := hb
  unfold calculate_match_score
  rw [pyLower_pyGet a1, pyLower_pyGet b1, pyLower_pyGet a2, pyLower_pyGet b2,
    pyLower_pyGet a3, pyLower_pyGet b3, pyLower_pyGet a4, pyLower_pyGet b4]
  simp only [Except.bind]
  simp only [score, typeScore, colorScore, brandScore, featureScore,
    featureOverlap, featureTokens, interp]
  simp only [pyGet_ne_unknown_iff a3, Except.ok.injEq]
  split_ifs <;> omega

/-- Witness for C2 (amended) at concrete well-formed raw records with a
mix of missing and present string fields. -/
theorem score_total_wellFormed_witness :
    WellFormed ⟨none, some (some "blue"), none, none⟩
    ∧ calculate_match_score ⟨none, some (some "blue"), none, none⟩
        ⟨none, none, some (some "Apple"), none⟩
      = Except.ok (score (interp ⟨none, some (some "blue"), none, none⟩)
          (interp ⟨none, none, some (some "Apple"), none⟩)) :=
  ⟨⟨by decide, by decide, by decide, by decide⟩,
    score_total_wellFormed ⟨none, some (some "blue"), none, none⟩
      ⟨none, none, some (some "Apple"), none⟩
      ⟨by decide, by decide, by decide, by decide⟩
      ⟨by decide, by decide, by decide, by decide⟩⟩

/-- Claim C8 counterexample: with brands "Unknown" versus "Coach", exactly one
side carries the literal "Unknown", yet the brand contribution (and the
whole score) is symmetric — both directions earn 0 because the brands are
not case-insensitively equal.  The asymmetry additionally requires
case-insensitive equality of the two brands. -/
theorem score_symm_counterexample :
    (⟨"", "", "Unknown", ""⟩ : ItemRecord).brand = "Unknown"
    ∧ (⟨"", "", "Coach", ""⟩ : ItemRecord).brand ≠ "Unknown"
    ∧ brandScore ⟨"", "", "Unknown", ""⟩ ⟨"", "", "Coach", ""⟩
        = brandScore ⟨"", "", "Coach", ""⟩ ⟨"", "", "Unknown", ""⟩
    ∧ score ⟨"", "", "Unknown", ""⟩ ⟨"", "", "Coach", ""⟩
        = score ⟨"", "", "Coach", ""⟩ ⟨"", "", "Unknown", ""⟩ := by
  decide

/-- Claim C8 (amended): the type, color, and feature-overlap contributions are
unchanged under swapping the two arguments; the whole score differs under
the swap exactly when the brand contribution does, and the brand
contribution differs exactly when the two brands are case-insensitively
equal and exactly one of them is the literal "Unknown". -/
theorem score_symm_except_brand (a b : ItemRecord) :
    typeScore a b = typeScore b a
    ∧ colorScore a b = colorScore b a
    ∧ featureScore a b = featureScore b a
    ∧ (score a b ≠ score b a ↔ brandScore a b ≠ brandScore b a)
    ∧ (brandScore a b ≠ brandScore b a ↔
        (lowerData a.brand = lowerData b.brand
          ∧ ¬(a.brand = "Unknown" ↔ b.brand = "Unknown"))) := by
  have ht : typeScore a b = typeScore b a := by
    unfold typeScore
    by_cases h : lowerData a.item_type = lowerData b.item_type
    · rw [if_pos h, if_pos h.symm]
    · rw [if_neg h, if_neg (fun hh => h hh.symm)]
  have hc : colorScore a b = colorScore b a := by
    unfold colorScore
    rw [Bool.or_comm]
  have hf : featureScore a b = featureScore b a := by
    unfold featureScore
    rw [featureOverlap_comm a b]
  refine ⟨ht, hc, hf, ?_, ?_⟩
  · unfold score
    rw [ht, hc, hf]
    omega
  · unfold brandScore
    by_cases h1 : lowerData a.brand = lowerData b.brand
    · by_cases h2 : a.brand = "Unknown" <;> by_cases h3 : b.brand = "Unknown"
      · rw [if_neg (fun hh => hh.2 h2), if_neg (fun hh => hh.2 h3)]
        simp [h2, h3]
      · rw [if_neg (fun hh => hh.2 h2), if_pos ⟨h1.symm, h3⟩]
        simp [h2, h3]
        exact h2 ▸ h1
      · rw [if_pos ⟨h1, h2⟩, if_neg (fun hh => hh.2 h3)]
        simp [h2, h3]
        exact h3 ▸ h1
      · rw [if_pos ⟨h1, h2⟩, if_pos ⟨h1.symm, h3⟩]
        simp [h1, h2, h3]
    · rw [if_neg (fun hh => h1 hh.1), if_neg (fun hh => h1 hh.1.symm)]
      simp [h1]

/-- Claim C9: two raw records whose four scored fields are all missing or empty
strings score exactly 85 (40 type + 25 color + 20 brand + 0 features), and
such a pair clears the rank admission threshold of 30: ranking one blank
record against a blank query returns it rather than filtering it out. -/
theorem blank_records_score (ra rb : RawItem)
    (ha1 : blankField ra.item_type) (ha2 : blankField ra.color)
    (ha3 : blankField ra.brand) (ha4 : blankField ra.features)
    (hb1 : blankField rb.item_type) (hb2 : blankField rb.color)
    (hb3 : blankField rb.brand) (hb4 : blankField rb.features) :
    calculate_match_score ra rb = Except.ok 85
    ∧ rank (interp ra) [interp rb] = [(85, interp rb)] := by
  obtain ⟨f1, f2, f3, f4⟩ := ra
  obtain ⟨g1, g2, g3, g4⟩ := rb
  simp only [blankField] at ha1 ha2 ha3 ha4 hb1 hb2 hb3 hb4
  rcases ha1 with rfl | rfl <;> rcases ha2 with rfl | rfl <;>
    rcases ha3 with rfl | rfl <;> rcases ha4 with rfl | rfl <;>
    rcases hb1 with rfl | rfl <;> rcases hb2 with rfl | rfl <;>
    rcases hb3 with rfl | rfl <;> rcases hb4 with rfl | rfl <;>
    exact ⟨rfl, rfl⟩

/-- Witness for C9 at concrete blank records mixing missing keys and
present empty strings. -/
theorem blank_records_score_witness :
    calculate_match_score ⟨none, some (some ""), none, some (some "")⟩
        ⟨some (some ""), none, none, none⟩ = Except.ok 85
    ∧ rank (interp ⟨none, some (some ""), none, some (some "")⟩)
        [interp ⟨some (some ""), none, none, none⟩]
      = [(85, interp ⟨some (some ""), none, none, none⟩)] :=
  blank_records_score ⟨none, some (some ""), none, some (some "")⟩
    ⟨some (some ""), none, none, none⟩
    (Or.inl rfl) (Or.inr rfl) (Or.inl rfl) (Or.inr rfl)
    (Or.inr rfl) (Or.inl rfl) (Or.inl rfl) (Or.inl rfl)

/-- Claim C6: every MatchResult returned by rank has score at least 30 (the
admission threshold `if score >= 30` of `page_lost_item`), and ranking
against an empty candidate pool returns the empty sequence — a normal
outcome, not an error. -/
theorem rank_threshold (query : ItemRecord) (candidates : List ItemRecord) :
    (∀ m ∈ rank query candidates, 30 ≤ m.1) ∧ rank query [] = [] := by
  constructor
  · intro m hm
    unfold rank at hm
    rw [List.mem_insertionSort] at hm
    exact of_decide_eq_true (List.mem_filter.mp hm).2
  · rfl

/-- Witness for C6: a blank query against one blank candidate admits the
candidate at score 85, and the theorem bounds that score by 30. -/
theorem rank_threshold_witness :
    ((85 : Nat), (⟨"", "", "", ""⟩ : ItemRecord))
        ∈ rank ⟨"", "", "", ""⟩ [⟨"", "", "", ""⟩]
    ∧ 30 ≤ ((85 : Nat), (⟨"", "", "", ""⟩ : ItemRecord)).1 :=
  ⟨by decide,
    (rank_threshold ⟨"", "", "", ""⟩ [⟨"", "", "", ""⟩]).1
      ((85 : Nat), (⟨"", "", "", ""⟩ : ItemRecord)) (by decide)⟩

/-- Claim C7: the sequence returned by rank is sorted non-increasing by score,
and kept candidates with equal scores appear in the same relative order as
in the input collection: at every score value, the subsequence of the
output equals the subsequence of the kept list, which lists the
candidates in input order. -/
theorem rank_sorted_stable (query : ItemRecord) (candidates : List ItemRecord) :
    (rank query candidates).Pairwise (fun x y => y.1 ≤ x.1)
    ∧ ∀ s : Nat,
        (rank query candidates).filter (fun m => m.1 = s)
          = (kept query candidates).filter (fun m => m.1 = s) := by
  constructor
  · exact List.sorted_insertionSort scoreGE (kept query candidates)
  · intro s
    have hperm : (rank query candidates).Perm (kept query candidates) :=
      List.perm_insertionSort scoreGE (kept query candidates)
    have hpair : ((kept query candidates).filter
        (fun m => decide (m.1 = s))).Pairwise scoreGE := by
      apply List.pairwise_of_forall_mem_list
      intro x hx y hy
      have hxs := of_decide_eq_true (List.mem_filter.mp hx).2
      have hys := of_decide_eq_true (List.mem_filter.mp hy).2
      unfold scoreGE
      rw [hxs, hys]
    have hsub : ((kept query candidates).filter
        (fun m => decide (m.1 = s))).Sublist (rank query candidates) :=
      List.sublist_insertionSort hpair (List.filter_sublist _)
    have hsub2 := hsub.filter (fun m => decide (m.1 = s))
    rw [List.filter_filter] at hsub2
    simp only [Bool.and_self] at hsub2
    have hlen : ((rank query candidates).filter (fun m => decide (m.1 = s))).length
        = ((kept query candidates).filter (fun m => decide (m.1 = s))).length :=
      (hperm.filter _).length_eq
    exact (hsub2.eq_of_length hlen.symm).symm

end USFInd
